import Mathlib

/-!
Verification development for the `gbae` GBA emulator core
(files under `src/`: `bitutil.rs`, `system/cpu.rs`, `system/memory.rs`,
`system/instructions/mod.rs`, `system/instructions/load_store.rs`,
`system/instructions/ctrl_ext.rs`).

Machine integers (`u8`, `u16`, `u32`) are embedded as `Nat` with explicit
`% 2^w` at the points where the Rust code performs wrapping arithmetic or
casts.  Shift amounts follow Rust release semantics (the shift count is
masked by the bit width).  Code that can panic is embedded with `Option`
(panic = `none`) or, where the panic message matters, with
`Memory × Option String` / `Except String _` carrying the message.
-/

namespace Gbae

/-- Modulus of `u32` arithmetic, `2^32`. -/
def U32 : Nat := 4294967296

/-- Wrap a natural number into `u32` range (Rust wrapping arithmetic / `as u32`). -/
def wrap32 (n : Nat) : Nat := n % U32

/-- Pointwise function update used to model in-place array writes. -/
def setIdx (f : Nat → Nat) (i v : Nat) : Nat → Nat :=
  fun j => if j = i then v else f j

/-! ## `src/bitutil.rs` -/

/-- Embeds `bitutil::get_bits32`: `(data & (((1 << len) - 1) << i)) >> i`
(shift counts masked mod 32 per Rust release semantics). -/
def get_bits32 (data i len : Nat) : Nat :=
  let mask := (1 <<< (len % 32)) % U32 - 1
  let shifted_mask := (mask <<< (i % 32)) % U32
  (data &&& shifted_mask) >>> (i % 32)

/-- Embeds `bitutil::set_bits32`: `(data & !mask) | ((value << i) & mask)` with
`mask = ((1 << len) - 1) << i` (shift counts masked mod 32). -/
def set_bits32 (data i len value : Nat) : Nat :=
  let mask := (((1 <<< (len % 32)) % U32 - 1) <<< (i % 32)) % U32
  (data &&& (4294967295 ^^^ mask)) ||| (((value <<< (i % 32)) % U32) &&& mask)

/-- Embeds `bitutil::get_bit`: `(data & (1 << i)) != 0`. -/
def get_bit (data i : Nat) : Bool :=
  data &&& ((1 <<< (i % 32)) % U32) != 0

/-- Embeds `bitutil::set_bit32`. -/
def set_bit32 (data i : Nat) (v : Bool) : Nat :=
  let mask := (1 <<< (i % 32)) % U32
  if v then data ||| mask else data &&& (4294967295 ^^^ mask)

/-- A `u32` value reinterpreted as `i32` (the Rust `as i32` cast). -/
def toInt32 (n : Nat) : Int :=
  if n < 2147483648 then (n : Int) else (n : Int) - 4294967296

/-- Embeds `bitutil::arithmetic_shift_right`: `((data as i32) >> shift) as u32`
(shift masked mod 32). -/
def arithmetic_shift_right (data shift : Nat) : Nat :=
  let sh := shift % 32
  if get_bit data 31 then
    (data >>> sh) ||| ((((1 <<< sh) - 1) <<< (32 - sh)) % U32)
  else
    data >>> sh

/-- Embeds `bitutil::sign_extend32`: `(((data << shift) as i32) >> shift) as u32`
with `shift = 32 - data_len`. -/
def sign_extend32 (data data_len : Nat) : Nat :=
  let shift := (32 - data_len) % 32
  arithmetic_shift_right ((data <<< shift) % U32) shift

/-- Embeds `bitutil::rotate_right_with_extend`: `(c as u32) << 31 | (data >> 1)`. -/
def rotate_right_with_extend (c_flag : Bool) (data : Nat) : Nat :=
  ((if c_flag then 1 else 0) <<< 31) ||| (data >>> 1)

/-- Rust `u32::rotate_right` (rotation amount is taken mod 32). -/
def rotate_right32 (x n : Nat) : Nat :=
  let sh := n % 32
  ((x >>> sh) ||| ((x <<< (32 - sh)) % U32)) % U32

/-- Embeds `bitutil::add_with_flags`: 64-bit unsigned and signed sums with
range checks, result truncated to `u32`. -/
def add_with_flags (a b : Nat) : Nat × Bool × Bool :=
  let unsigned_result_64 := (a + b) % 18446744073709551616
  let signed_result_64 : Int := toInt32 a + toInt32 b
  let unsigned_overflow := decide (unsigned_result_64 > 4294967295)
  let signed_overflow := decide (signed_result_64 > 2147483647 ∨ signed_result_64 < -2147483648)
  (unsigned_result_64 % U32, unsigned_overflow, signed_overflow)

/-- Embeds `bitutil::sub_with_flags`: 64-bit wrapping subtraction with unsigned
underflow and signed overflow checks, result truncated to `u32`. -/
def sub_with_flags (a b : Nat) : Nat × Bool × Bool :=
  let unsigned_result_64 := (18446744073709551616 + a - b) % 18446744073709551616
  let signed_result_64 : Int := toInt32 a - toInt32 b
  let unsigned_underflow := decide (unsigned_result_64 > 4294967295)
  let signed_overflow := decide (signed_result_64 > 2147483647 ∨ signed_result_64 < -2147483648)
  (unsigned_result_64 % U32, unsigned_underflow, signed_overflow)

/-! ## `src/system/cpu.rs`: modes, register file, status registers -/

def MODE_USR : Nat := 0b10000
def MODE_FIQ : Nat := 0b10001
def MODE_IRQ : Nat := 0b10010
def MODE_SVC : Nat := 0b10011
def MODE_ABT : Nat := 0b10111
def MODE_UND : Nat := 0b11011
def MODE_SYS : Nat := 0b11111

def INSTRUCTION_LEN_ARM : Nat := 4
def INSTRUCTION_LEN_THUMB : Nat := 2

/-- The `CPU` struct of `system/cpu.rs`: unbanked registers, the banked
shadow registers of the five privileged modes, the SPSRs, the
branch flag and the cycle counter. -/
structure CPU where
  cpsr : Nat
  r : Nat → Nat
  r_svc : Nat → Nat
  r_abt : Nat → Nat
  r_und : Nat → Nat
  r_irq : Nat → Nat
  r_fiq : Nat → Nat
  spsr_svc : Nat
  spsr_abt : Nat
  spsr_und : Nat
  spsr_irq : Nat
  spsr_fiq : Nat
  branch_happened : Bool
  cycles : Nat

namespace CPU

/-- Length of the banked-register slice selected by `CPU::get_r_in_mode`;
`none` models the `panic!("Invalid mode")` arm. -/
def bankedLen (mode : Nat) : Option Nat :=
  if mode = MODE_USR ∨ mode = MODE_SYS then some 0
  else if mode = MODE_SVC then some 2
  else if mode = MODE_ABT then some 2
  else if mode = MODE_UND then some 2
  else if mode = MODE_IRQ then some 2
  else if mode = MODE_FIQ then some 7
  else none

/-- The banked-register array belonging to a (valid, banked) mode. -/
def bankedGet (c : CPU) (mode : Nat) : Nat → Nat :=
  if mode = MODE_SVC then c.r_svc
  else if mode = MODE_ABT then c.r_abt
  else if mode = MODE_UND then c.r_und
  else if mode = MODE_IRQ then c.r_irq
  else if mode = MODE_FIQ then c.r_fiq
  else fun _ => 0

/-- Write slot `i` of the banked array of `mode`. -/
def setBanked (c : CPU) (mode i v : Nat) : CPU :=
  if mode = MODE_SVC then { c with r_svc := setIdx c.r_svc i v }
  else if mode = MODE_ABT then { c with r_abt := setIdx c.r_abt i v }
  else if mode = MODE_UND then { c with r_und := setIdx c.r_und i v }
  else if mode = MODE_IRQ then { c with r_irq := setIdx c.r_irq i v }
  else if mode = MODE_FIQ then { c with r_fiq := setIdx c.r_fiq i v }
  else c

/-- Embeds `CPU::get_r_in_mode`; `none` models the panics (invalid mode, or an
out-of-range register index on the unbanked array). -/
def get_r_in_mode (c : CPU) (rn mode : Nat) : Option Nat :=
  match bankedLen mode with
  | none => none
  | some len =>
    let banked_start := 15 - len
    if banked_start ≤ rn ∧ rn < 15 then
      some (bankedGet c mode (rn - banked_start))
    else if rn < 16 then
      some (c.r rn)
    else
      none

/-- Embeds `CPU::set_r_in_mode`; marks `branch_happened` on a write to r15. -/
def set_r_in_mode (c : CPU) (rn mode v : Nat) : Option CPU :=
  match bankedLen mode with
  | none => none
  | some len =>
    let banked_start := 15 - len
    if banked_start ≤ rn ∧ rn < 15 then
      some (setBanked c mode (rn - banked_start) v)
    else if rn < 16 then
      let c1 := { c with r := setIdx c.r rn v }
      some (if rn = 15 then { c1 with branch_happened := true } else c1)
    else
      none

/-- Embeds `CPU::get_mode`: low five bits of CPSR. -/
def get_mode (c : CPU) : Nat := get_bits32 c.cpsr 0 5

/-- Embeds `CPU::get_r`: read through the current mode. -/
def get_r (c : CPU) (rn : Nat) : Option Nat := c.get_r_in_mode rn c.get_mode

/-- Embeds `CPU::set_r`: write through the current mode. -/
def set_r (c : CPU) (rn v : Nat) : Option CPU := c.set_r_in_mode rn c.get_mode v

def get_negative_flag (c : CPU) : Bool := get_bit c.cpsr 31
def get_zero_flag (c : CPU) : Bool := get_bit c.cpsr 30
def get_carry_flag (c : CPU) : Bool := get_bit c.cpsr 29
def get_overflow_flag (c : CPU) : Bool := get_bit c.cpsr 28
def get_thumb_state (c : CPU) : Bool := get_bit c.cpsr 5

/-- Embeds `CPU::current_mode_has_spsr`. -/
def current_mode_has_spsr (c : CPU) : Bool :=
  c.get_mode != MODE_USR && c.get_mode != MODE_SYS

/-- Embeds `CPU::in_a_privileged_mode`. -/
def in_a_privileged_mode (c : CPU) : Bool := c.get_mode != MODE_USR

/-- Embeds `CPU::get_spsr` (`none` models the invalid-mode panic). -/
def get_spsr (c : CPU) : Option Nat :=
  if c.get_mode = MODE_SVC then some c.spsr_svc
  else if c.get_mode = MODE_ABT then some c.spsr_abt
  else if c.get_mode = MODE_UND then some c.spsr_und
  else if c.get_mode = MODE_IRQ then some c.spsr_irq
  else if c.get_mode = MODE_FIQ then some c.spsr_fiq
  else none

/-- Embeds `CPU::set_spsr` (`none` models the invalid-mode panic). -/
def set_spsr (c : CPU) (v : Nat) : Option CPU :=
  if c.get_mode = MODE_SVC then some { c with spsr_svc := v }
  else if c.get_mode = MODE_ABT then some { c with spsr_abt := v }
  else if c.get_mode = MODE_UND then some { c with spsr_und := v }
  else if c.get_mode = MODE_IRQ then some { c with spsr_irq := v }
  else if c.get_mode = MODE_FIQ then some { c with spsr_fiq := v }
  else none

/-- Embeds `CPU::instruction_len_in_bytes`. -/
def instruction_len_in_bytes (c : CPU) : Nat :=
  if c.get_thumb_state then INSTRUCTION_LEN_THUMB else INSTRUCTION_LEN_ARM

end CPU

/-! ## `src/system/memory.rs` -/

def WRAM1_LEN : Nat := 0x40000
def WRAM2_LEN : Nat := 0x800
def IO_REGISTERS_LEN : Nat := 0x3FF
def PALETTE_RAM_LEN : Nat := 0x400
def VRAM_LEN : Nat := 0x18000

/-- Embeds `memory::vram_index`: wrap into the 128 KiB window, then subtract
`VRAM_LEN` for offsets past the 96 KiB extent. -/
def vram_index (address start : Nat) : Nat :=
  let a := (address - start) % 0x20000
  if a ≥ VRAM_LEN then a - VRAM_LEN else a

/-- The `Memory` struct generated by `gen_memory!`.  Byte vectors are
functions; `bios` and `game_pak` carry their (run-time) lengths, the RAM
vectors have the fixed lengths assigned in `Memory::new`. -/
structure Memory where
  bios : Nat → Nat
  biosLen : Nat
  wram1 : Nat → Nat
  wram2 : Nat → Nat
  io_registers : Nat → Nat
  palette_ram : Nat → Nat
  vram : Nat → Nat
  game_pak : Nat → Nat
  gamePakLen : Nat

namespace Memory

/-- Embeds `Memory::_read_u8`: the region dispatch of `gen_memory!`, rows in the
declared order; `none` models the unmapped/out-of-bounds panics. -/
def _read_u8 (m : Memory) (address : Nat) : Option Nat :=
  if address ≤ 0x3FFF then
    if address < m.biosLen then some (m.bios address) else none
  else if 0x2000000 ≤ address ∧ address ≤ 0x2FFFFFF then
    some (m.wram1 ((address - 0x2000000) % WRAM1_LEN))
  else if 0x3000000 ≤ address ∧ address ≤ 0x3FFFFFF then
    some (m.wram2 ((address - 0x3000000) % WRAM2_LEN))
  else if 0x4000000 ≤ address ∧ address ≤ 0x40003FE then
    some (m.io_registers (address - 0x4000000))
  else if 0x5000000 ≤ address ∧ address ≤ 0x5FFFFFF then
    some (m.palette_ram ((address - 0x5000000) % PALETTE_RAM_LEN))
  else if 0x6000000 ≤ address ∧ address ≤ 0x6FFFFFF then
    some (m.vram (vram_index address 0x6000000))
  else if 0x8000000 ≤ address ∧ address ≤ 0x9FFFFFF then
    if address - 0x8000000 < m.gamePakLen then some (m.game_pak (address - 0x8000000)) else none
  else
    none

/-- Embeds `Memory::_write_u8`: returns the (possibly partially) updated memory
together with the panic message, if any. -/
def _write_u8 (m : Memory) (address value : Nat) : Memory × Option String :=
  if address ≤ 0x3FFF then
    (m, some "Write to read-only address")
  else if 0x2000000 ≤ address ∧ address ≤ 0x2FFFFFF then
    ({ m with wram1 := setIdx m.wram1 ((address - 0x2000000) % WRAM1_LEN) value }, none)
  else if 0x3000000 ≤ address ∧ address ≤ 0x3FFFFFF then
    ({ m with wram2 := setIdx m.wram2 ((address - 0x3000000) % WRAM2_LEN) value }, none)
  else if 0x4000000 ≤ address ∧ address ≤ 0x40003FE then
    ({ m with io_registers := setIdx m.io_registers (address - 0x4000000) value }, none)
  else if 0x5000000 ≤ address ∧ address ≤ 0x5FFFFFF then
    ({ m with palette_ram := setIdx m.palette_ram ((address - 0x5000000) % PALETTE_RAM_LEN) value }, none)
  else if 0x6000000 ≤ address ∧ address ≤ 0x6FFFFFF then
    ({ m with vram := setIdx m.vram (vram_index address 0x6000000) value }, none)
  else if 0x8000000 ≤ address ∧ address ≤ 0x9FFFFFF then
    (m, some "Write to read-only address")
  else
    (m, some "Write to unmapped address")

/-- Embeds `Memory::read_u8`. -/
def read_u8 (m : Memory) (address : Nat) : Option Nat := m._read_u8 address

/-- Embeds `Memory::read_u16`: little-endian composition of two byte reads. -/
def read_u16 (m : Memory) (address : Nat) : Option Nat :=
  match m.read_u8 address, m.read_u8 (address + 1) with
  | some low, some high => some ((high <<< 8) ||| low)
  | _, _ => none

/-- Embeds `Memory::read_u32`: little-endian composition of two halfword reads. -/
def read_u32 (m : Memory) (address : Nat) : Option Nat :=
  match m.read_u16 address, m.read_u16 (address + 2) with
  | some low, some high => some ((high <<< 16) ||| low)
  | _, _ => none

/-- Embeds `Memory::write_u8`: byte writes into the display-memory range
(`0x05000000..=0x07FFFFFF`) panic before dispatching. -/
def write_u8 (m : Memory) (address value : Nat) : Memory × Option String :=
  if 0x5000000 ≤ address ∧ address ≤ 0x7FFFFFF then
    (m, some "8bit writes into Video Memory are not supported")
  else
    m._write_u8 address value

/-- Embeds `Memory::write_u16`: the two constituent byte writes in ascending
address order; a panic in the first write prevents the second. -/
def write_u16 (m : Memory) (address value : Nat) : Memory × Option String :=
  let r1 := m._write_u8 address (value % 256)
  match r1.2 with
  | some e => (r1.1, some e)
  | none => r1.1._write_u8 (address + 1) ((value >>> 8) % 256)

/-- Embeds `Memory::write_u32`: two halfword writes in ascending address order. -/
def write_u32 (m : Memory) (address value : Nat) : Memory × Option String :=
  let r1 := m.write_u16 address (value % 65536)
  match r1.2 with
  | some e => (r1.1, some e)
  | none => r1.1.write_u16 (address + 2) ((value >>> 16) % 65536)

end Memory

/-! ## `src/system/instructions/mod.rs`: conditions -/

inductive Condition where
  | EQ | NE | CS | CC | MI | PL | VS | VC | HI | LS | GE | LT | GT | LE | AL
  deriving DecidableEq, Repr

namespace Condition

/-- Embeds `Condition::parse`; `none` models the `panic!("Invalid condition")`
arm reached by the reserved encoding `0b1111`. -/
def parse (cond : Nat) : Option Condition :=
  if cond = 0b0000 then some .EQ
  else if cond = 0b0001 then some .NE
  else if cond = 0b0010 then some .CS
  else if cond = 0b0011 then some .CC
  else if cond = 0b0100 then some .MI
  else if cond = 0b0101 then some .PL
  else if cond = 0b0110 then some .VS
  else if cond = 0b0111 then some .VC
  else if cond = 0b1000 then some .HI
  else if cond = 0b1001 then some .LS
  else if cond = 0b1010 then some .GE
  else if cond = 0b1011 then some .LT
  else if cond = 0b1100 then some .GT
  else if cond = 0b1101 then some .LE
  else if cond = 0b1110 then some .AL
  else none

/-- Embeds `Condition::decode_arm`: parse bits 28..=31 of the instruction. -/
def decode_arm (instruction : Nat) : Option Condition :=
  parse (get_bits32 instruction 28 4)

/-- Embeds `Condition::check` against the CPSR flags. -/
def check (cond : Condition) (cpu : CPU) : Bool :=
  match cond with
  | .EQ => cpu.get_zero_flag
  | .NE => !cpu.get_zero_flag
  | .CS => cpu.get_carry_flag
  | .CC => !cpu.get_carry_flag
  | .MI => cpu.get_negative_flag
  | .PL => !cpu.get_negative_flag
  | .VS => cpu.get_overflow_flag
  | .VC => !cpu.get_overflow_flag
  | .HI => cpu.get_carry_flag && !cpu.get_zero_flag
  | .LS => !cpu.get_carry_flag || cpu.get_zero_flag
  | .GE => cpu.get_negative_flag == cpu.get_overflow_flag
  | .LT => cpu.get_negative_flag != cpu.get_overflow_flag
  | .GT => !cpu.get_zero_flag && (cpu.get_negative_flag == cpu.get_overflow_flag)
  | .LE => cpu.get_zero_flag || (cpu.get_negative_flag != cpu.get_overflow_flag)
  | .AL => true

end Condition

/-! ## `CPU::cycle` (`src/system/cpu.rs`, lines 169-198)

The decode tables and the per-instruction executors are abstracted by a
parameter `exec : CPU → Memory → CPU × Memory` standing for
`decoded_instruction.execute(self, mem)`; everything else in the step
loop (the fetches, the PC increments, the ARM condition check, the
branch-flag protocol and the final PC retreat) is embedded directly. -/

namespace CPU

/-- The direct `self.r[REGISTER_PC] += self.instruction_len_in_bytes()`
performed by `cycle` (bypasses `set_r`, so `branch_happened` is untouched). -/
def advancePC (c : CPU) : CPU :=
  { c with r := setIdx c.r 15 (wrap32 (c.r 15 + c.instruction_len_in_bytes)) }

/-- The CPU state handed to `decoded_instruction.execute`: PC advanced
twice from the fetch address and the branch flag cleared. -/
def execStageCPU (c : CPU) : CPU :=
  { c.advancePC.advancePC with branch_happened := false }

/-- The tail of `cycle` from the second PC advance on: run the operation,
then retreat PC by one instruction width unless a branch happened, and
add the approximate cycle count. -/
def execPhase (exec : CPU → Memory → CPU × Memory) (c : CPU) (m : Memory) :
    CPU × Memory :=
  let res := exec c.execStageCPU m
  let c3 := res.1
  let c4 :=
    if c3.branch_happened then c3
    else { c3 with r := setIdx c3.r 15 (wrap32 (c3.r 15 + U32 - c3.instruction_len_in_bytes)) }
  ({ c4 with cycles := c4.cycles + 2 }, res.2)

/-- Embeds `CPU::cycle` with the decoded operation's `execute` abstracted as
`exec`.  `none` models a panic during fetch or condition decode. -/
def cycle (exec : CPU → Memory → CPU × Memory) (c : CPU) (m : Memory) :
    Option (CPU × Memory) :=
  if c.get_thumb_state then
    match m.read_u16 (c.r 15), m.read_u16 (wrap32 (c.r 15 + INSTRUCTION_LEN_THUMB)) with
    | some _, some _ => some (execPhase exec c m)
    | _, _ => none
  else
    match m.read_u32 (c.r 15) with
    | none => none
    | some instruction =>
      match Condition.decode_arm instruction with
      | none => none
      | some cond =>
        if cond.check c.advancePC then some (execPhase exec c m)
        else some (c.advancePC, m)

end CPU

/-! ## `src/system/instructions/load_store.rs` -/

namespace LoadStore

inductive Opcode where
  | LDR | STR
  deriving DecidableEq, Repr

inductive Length where
  | Byte | Halfword | Word | Doubleword
  deriving DecidableEq, Repr

inductive AddressingModeType where
  | Immediate (imm : Nat)
  | Register (m : Nat)
  | LogicalShiftLeft (m shift_imm : Nat)
  | LogicalShiftRight (m shift_imm : Nat)
  | ArithmeticShiftRight (m shift_imm : Nat)
  | RotateRight (m shift_imm : Nat)
  | RotateRightWithExtend (m : Nat)
  deriving Repr

inductive IndexingMode where
  | Offset
  | PreIndexed
  | PostIndexed (t : Bool)
  deriving Repr

structure AddressingMode where
  u_is_add : Bool
  n : Nat
  mode : AddressingModeType
  indexing_mode : IndexingMode

end LoadStore

/-- The `LoadStore` operation object. -/
structure LoadStore where
  opcode : LoadStore.Opcode
  length : LoadStore.Length
  sign_extend : Bool
  d : Nat
  adressing_mode : LoadStore.AddressingMode

namespace LoadStore

/-- Embeds `AddressingMode::execute`: compute the effective address, performing
the writeback register updates of the pre- and post-indexed modes.
`none` models the panics of `get_r`/`set_r`. -/
def addressing_execute (am : AddressingMode) (cpu : CPU) : Option (Nat × CPU) := do
  let offset ←
    match am.mode with
    | .Immediate imm => pure imm
    | .Register m => cpu.get_r m
    | .LogicalShiftLeft m shift_imm => do
        let x ← cpu.get_r m
        pure ((x <<< (shift_imm % 32)) % U32)
    | .LogicalShiftRight m shift_imm => do
        let x ← cpu.get_r m
        pure (if shift_imm = 0 then 0 else x >>> (shift_imm % 32))
    | .ArithmeticShiftRight m shift_imm => do
        let x ← cpu.get_r m
        pure (if shift_imm = 0 then (if get_bit x 31 then 0xFFFFFFFF else 0)
              else arithmetic_shift_right x shift_imm)
    | .RotateRight m shift_imm => do
        let x ← cpu.get_r m
        pure (rotate_right32 x shift_imm)
    | .RotateRightWithExtend m => do
        let x ← cpu.get_r m
        pure (rotate_right_with_extend cpu.get_carry_flag x)
  let r_n_raw ← cpu.get_r am.n
  let r_n := if am.n = 15 then r_n_raw &&& 0xFFFFFFFC else r_n_raw
  let r_n_offset :=
    if am.u_is_add then wrap32 (r_n + offset) else wrap32 (r_n + U32 - offset % U32)
  match am.indexing_mode with
  | .Offset => pure (r_n_offset, cpu)
  | .PreIndexed => do
      let cpu' ← cpu.set_r am.n r_n_offset
      pure (r_n_offset, cpu')
  | .PostIndexed _ => do
      let cpu' ← cpu.set_r am.n r_n_offset
      pure (r_n, cpu')

/-- Lift a memory write to the `Option` panic model used by `execute`
(discarding the message, as the process aborts). -/
def memWrite (r : Memory × Option String) : Option Memory :=
  match r.2 with
  | some _ => none
  | none => some r.1

/-- Embeds `LoadStore::execute` (`load_store.rs` lines 180-210); the `d == 15`
`todo!` and every panic map to `none`. -/
def execute (ins : LoadStore) (cpu : CPU) (mem : Memory) : Option (CPU × Memory) := do
  if ins.d = 15 then
    none
  else
    let (address, cpu) ← addressing_execute ins.adressing_mode cpu
    match ins.opcode with
    | .LDR =>
      match ins.length with
      | .Byte => do
          let v ← mem.read_u8 address
          let cpu ← cpu.set_r ins.d (if ins.sign_extend then sign_extend32 v 8 else v)
          pure (cpu, mem)
      | .Halfword => do
          let v ← mem.read_u16 address
          let cpu ← cpu.set_r ins.d (if ins.sign_extend then sign_extend32 v 16 else v)
          pure (cpu, mem)
      | .Word => do
          let v ← mem.read_u32 address
          let cpu ← cpu.set_r ins.d v
          pure (cpu, mem)
      | .Doubleword => do
          let v1 ← mem.read_u32 address
          let cpu ← cpu.set_r ins.d v1
          let v2 ← mem.read_u32 (wrap32 (address + 4))
          let cpu ← cpu.set_r (ins.d + 1) v2
          pure (cpu, mem)
    | .STR =>
      match ins.length with
      | .Byte => do
          let v ← cpu.get_r ins.d
          let mem ← memWrite (mem.write_u8 address (v % 256))
          pure (cpu, mem)
      | .Halfword => do
          let v ← cpu.get_r ins.d
          let mem ← memWrite (mem.write_u16 address (v % 65536))
          pure (cpu, mem)
      | .Word => do
          let v ← cpu.get_r ins.d
          let mem ← memWrite (mem.write_u32 address v)
          pure (cpu, mem)
      | .Doubleword => do
          let v1 ← cpu.get_r ins.d
          let mem ← memWrite (mem.write_u32 address v1)
          let v2 ← cpu.get_r (ins.d + 1)
          let mem ← memWrite (mem.write_u32 (wrap32 (address + 4)) v2)
          pure (cpu, mem)

end LoadStore

/-! ## `src/system/instructions/ctrl_ext.rs`: MSR -/

namespace Msr

/-- Masks for processor ARM7TDMI (`ctrl_ext.rs`). -/
def UNALLOC_MASK : Nat := 0x0FFFFF00
def USER_MASK : Nat := 0xF0000000
def PRIV_MASK : Nat := 0x0000000F
def STATE_MASK : Nat := 0x00000020

inductive MsrOperand where
  | Immediate (v : Nat)
  | Register (m : Nat)
  deriving Repr

end Msr

/-- The `Msr` operation object. -/
structure Msr where
  mode : Msr.MsrOperand
  field_mask : Nat
  r : Bool

namespace Msr

/-- The operand value: the pre-rotated immediate, or `Rm` read through
the current mode. -/
def operandOf (ins : Msr) (cpu : CPU) : Option Nat :=
  match ins.mode with
  | .Immediate imm => some imm
  | .Register m => cpu.get_r m

/-- The byte-lane mask built from the 4-bit field mask
(`for i in 0..4 { if bit i { mask |= 0xFF << (8*i) } }`). -/
def laneMask (field_mask : Nat) : Nat :=
  (List.range 4).foldl
    (fun mask i => if get_bit field_mask i then mask ||| (0xFF <<< (8 * i)) else mask) 0

/-- Embeds `Msr::execute` (`ctrl_ext.rs` lines 82-118); `Except.error` carries
the panic message. -/
def execute (ins : Msr) (cpu : CPU) : Except String CPU :=
  match operandOf ins cpu with
  | none => .error "Invalid mode"
  | some operand =>
    if operand &&& UNALLOC_MASK ≠ 0 then
      .error "Attempt to set reserved bits"
    else
      let mask := laneMask ins.field_mask
      if !ins.r then
        if cpu.in_a_privileged_mode then
          if operand &&& STATE_MASK ≠ 0 then
            .error "Attempt to set non-ARM execution state"
          else
            let mask := mask &&& (USER_MASK ||| PRIV_MASK)
            .ok { cpu with cpsr := (cpu.cpsr &&& (4294967295 ^^^ mask)) ||| (operand &&& mask) }
        else
          let mask := mask &&& USER_MASK
          .ok { cpu with cpsr := (cpu.cpsr &&& (4294967295 ^^^ mask)) ||| (operand &&& mask) }
      else
        if cpu.current_mode_has_spsr then
          let mask := mask &&& (USER_MASK ||| PRIV_MASK ||| STATE_MASK)
          match cpu.get_spsr with
          | none => .error "Invalid mode"
          | some spsr =>
            match cpu.set_spsr ((spsr &&& (4294967295 ^^^ mask)) ||| (operand &&& mask)) with
            | none => .error "Invalid mode"
            | some cpu' => .ok cpu'
        else
          .error "Tried to set SPSR in user or system mode"

end Msr

/-! ## Register-file write traces (for the bank-routing invariant) -/

/-- One register-file write operation `set_r_in_mode(rn, mode, v)`. -/
inductive RegOp where
  | write (rn mode v : Nat)

namespace RegOp

def rn : RegOp → Nat | .write a _ _ => a
def mode : RegOp → Nat | .write _ a _ => a
def value : RegOp → Nat | .write _ _ a => a

end RegOp

/-- Run a list of register-file writes from an initial CPU state;
`none` if any write panics. -/
def runTrace (c : CPU) : List RegOp → Option CPU
  | [] => some c
  | .write rn mode v :: t =>
    match c.set_r_in_mode rn mode v with
    | none => none
    | some c' => runTrace c' t

/-- The seven valid processor-mode encodings. -/
def ValidMode (mode : Nat) : Prop :=
  mode = MODE_USR ∨ mode = MODE_FIQ ∨ mode = MODE_IRQ ∨ mode = MODE_SVC ∨
  mode = MODE_ABT ∨ mode = MODE_UND ∨ mode = MODE_SYS

instance (mode : Nat) : Decidable (ValidMode mode) := by
  unfold ValidMode; infer_instance

/-- Register `rn` is banked in `mode`: exactly the branch condition
`banked_start ≤ rn < 15` of `get_r_in_mode`/`set_r_in_mode`. -/
def isBanked (rn mode : Nat) : Bool :=
  match CPU.bankedLen mode with
  | some len => decide (15 - len ≤ rn ∧ rn < 15)
  | none => false

/-- A write is routed to the same storage slot that a read of `rn` in
`mode` consults: same register, and the same banked array when `rn` is
banked in `mode`, or the unbanked array otherwise. -/
def relevantWrite (rn mode : Nat) (op : RegOp) : Bool :=
  op.rn = rn && (if isBanked rn mode then op.mode = mode else !isBanked rn op.mode)

/-- Value of the most recent routed write in the trace: later writes
take precedence, so the tail is consulted first. -/
def lastRelevant (t : List RegOp) (rn mode : Nat) : Option Nat :=
  match t with
  | [] => none
  | op :: t =>
    match lastRelevant t rn mode with
    | some x => some x
    | none => if relevantWrite rn mode op then some op.value else none

/-! ## Concrete states and operations used by the theorems -/

/-- An all-zero CPU state. -/
def cpuZero : CPU :=
  { cpsr := 0, r := fun _ => 0,
    r_svc := fun _ => 0, r_abt := fun _ => 0, r_und := fun _ => 0,
    r_irq := fun _ => 0, r_fiq := fun _ => 0,
    spsr_svc := 0, spsr_abt := 0, spsr_und := 0, spsr_irq := 0, spsr_fiq := 0,
    branch_happened := false, cycles := 0 }

/-- An all-zero memory image. -/
def memZero : Memory :=
  { bios := fun _ => 0, biosLen := 0x4000,
    wram1 := fun _ => 0, wram2 := fun _ => 0,
    io_registers := fun _ => 0, palette_ram := fun _ => 0,
    vram := fun _ => 0,
    game_pak := fun _ => 0, gamePakLen := 0x1000000 }

/-- A memory whose VRAM content distinguishes extent offsets `0x0` and
`0x10000`; every other region is zero-filled. -/
def memC6 : Memory :=
  { bios := fun _ => 0, biosLen := 0x4000,
    wram1 := fun _ => 0, wram2 := fun _ => 0,
    io_registers := fun _ => 0, palette_ram := fun _ => 0,
    vram := fun i => if i = 0x10000 then 2 else 1,
    game_pak := fun _ => 0, gamePakLen := 0x1000000 }

/-- CPU in SVC mode with `r0 = 0x02000000` (base of on-board WRAM). -/
def cpuC5 : CPU := { cpuZero with cpsr := 0x13, r := setIdx (fun _ => 0) 0 0x2000000 }

/-- Memory with recognisable bytes at WRAM offsets 2..5. -/
def memC5 : Memory :=
  { memZero with wram1 := fun i =>
      if i = 2 then 0x33 else if i = 3 then 0x44
      else if i = 4 then 0x55 else if i = 5 then 0x66 else 0 }

/-- Decoded `LDR R1, [R0, #+2]` — effective address `0x02000002`, which is
misaligned (`addr mod 4 = 2`). -/
def ldrMis : LoadStore :=
  { opcode := .LDR, length := .Word, sign_extend := false, d := 1,
    adressing_mode :=
      { u_is_add := true, n := 0, mode := .Immediate 2, indexing_mode := .Offset } }

/-- CPU in SVC mode (CPSR `0x13`), all flags clear. -/
def cpuSvc : CPU := { cpuZero with cpsr := 0x13 }

/-- Decoded `MSR CPSR_c, #0x1F`: immediate operand `0x1F`, control lane selected. -/
def msrCtrl : Msr := { mode := .Immediate 0x1F, field_mask := 1, r := false }

/-- CPU in USR mode (CPSR `0x10`), all flags clear. -/
def cpuUsr : CPU := { cpuZero with cpsr := 0x10 }

/-- Decoded `MSR CPSR_f, #0xF0000000`: all four flag bits, all byte lanes. -/
def msrFlags : Msr := { mode := .Immediate 0xF0000000, field_mask := 0xF, r := false }

/-- Decoded `MSR CPSR_c, #0x93` — the canonical disable-IRQ idiom:
operand sets mode bits 0-1, mode bit 4 and the I bit (bit 7), control
lane selected. -/
def msrCtrlI : Msr := { mode := .Immediate 0x93, field_mask := 1, r := false }

/-- Decoded `MSR CPSR_c, #0x20`: an operand with (only) the T bit set,
control lane selected, CPSR destination. -/
def msrTset : Msr := { mode := .Immediate 0x20, field_mask := 1, r := false }

/-- Decoded `MSR SPSR_c, #0x20`: an operand with (only) the T bit set,
control lane selected, SPSR destination. -/
def msrTspsr : Msr := { mode := .Immediate 0x20, field_mask := 1, r := true }

/-- The identity operation: executes with no effect at all (in
particular no write to register 15). -/
def idExec : CPU → Memory → CPU × Memory := fun c m => (c, m)

/-- Reading the slot just written. -/
theorem setIdx_same (f : Nat → Nat) (i v : Nat) : setIdx f i v i = v := by
  simp [setIdx]

/-- Reading any other slot. -/
theorem setIdx_other (f : Nat → Nat) {i j : Nat} (v : Nat) (h : j ≠ i) :
    setIdx f i v j = f j := by
  simp [setIdx, h]

/-! ## C3: condition evaluation -/

/-- Claim C3: For every CPSR flag state, `Condition::check` computes `AL`
as `true` and the architecture truth table for the other 14 codes
(`EQ`=Z, `NE`=¬Z, `CS`=C, `CC`=¬C, `MI`=N, `PL`=¬N, `VS`=V, `VC`=¬V,
`HI`=C∧¬Z, `LS`=¬C∨Z, `GE`=(N=V), `LT`=(N≠V), `GT`=¬Z∧(N=V),
`LE`=Z∨(N≠V)); and the reserved condition encoding `0b1111` (NV) is a
decode error (`Condition::parse` panics) rather than a condition value. -/
theorem condition_check_truth_table :
    (∀ cpu : CPU, Condition.check .AL cpu = true) ∧
    (∀ cpu : CPU,
      Condition.check .EQ cpu = cpu.get_zero_flag ∧
      Condition.check .NE cpu = !cpu.get_zero_flag ∧
      Condition.check .CS cpu = cpu.get_carry_flag ∧
      Condition.check .CC cpu = !cpu.get_carry_flag ∧
      Condition.check .MI cpu = cpu.get_negative_flag ∧
      Condition.check .PL cpu = !cpu.get_negative_flag ∧
      Condition.check .VS cpu = cpu.get_overflow_flag ∧
      Condition.check .VC cpu = !cpu.get_overflow_flag ∧
      Condition.check .HI cpu = (cpu.get_carry_flag && !cpu.get_zero_flag) ∧
      Condition.check .LS cpu = (!cpu.get_carry_flag || cpu.get_zero_flag) ∧
      Condition.check .GE cpu = (cpu.get_negative_flag == cpu.get_overflow_flag) ∧
      Condition.check .LT cpu = (cpu.get_negative_flag != cpu.get_overflow_flag) ∧
      Condition.check .GT cpu = (!cpu.get_zero_flag && (cpu.get_negative_flag == cpu.get_overflow_flag)) ∧
      Condition.check .LE cpu = (cpu.get_zero_flag || (cpu.get_negative_flag != cpu.get_overflow_flag))) ∧
    Condition.parse 0b1111 = none := by
  exact ⟨fun _ => rfl,
    fun _ => ⟨rfl, rfl, rfl, rfl, rfl, rfl, rfl, rfl, rfl, rfl, rfl, rfl, rfl, rfl⟩, rfl⟩

/-! ## C4: flag primitives -/

/-- Claim C4: For all `u32` values `a`, `b`: `add_with_flags` returns the
sum mod `2^32`, carry exactly when `a + b ≥ 2^32`, and overflow exactly
when the signed sum leaves the `i32` range; `sub_with_flags` returns the
wrapping difference, borrow exactly when `a < b` unsigned, and overflow
exactly when the sign of `a` differs from the sign of `b` and from the
sign of the difference. -/
theorem add_sub_with_flags_exact (a b : Nat) (ha : a < U32) (hb : b < U32) :
    (add_with_flags a b).1 = (a + b) % U32 ∧
    ((add_with_flags a b).2.1 = true ↔ U32 ≤ a + b) ∧
    ((add_with_flags a b).2.2 = true ↔
      (toInt32 a + toInt32 b > 2147483647 ∨ toInt32 a + toInt32 b < -2147483648)) ∧
    (sub_with_flags a b).1 = (U32 + a - b) % U32 ∧
    ((sub_with_flags a b).2.1 = true ↔ a < b) ∧
    ((sub_with_flags a b).2.2 = true ↔
      (¬((2147483648 ≤ a) ↔ (2147483648 ≤ b)) ∧
       ¬((2147483648 ≤ a) ↔ (2147483648 ≤ (U32 + a - b) % U32)))) := by
  unfold add_with_flags sub_with_flags U32 at *
  refine ⟨?_, ?_, ?_, ?_, ?_, ?_⟩
  · simp only; omega
  · simp only [decide_eq_true_eq]; omega
  · simp only [decide_eq_true_eq]
  · simp only; omega
  · simp only [decide_eq_true_eq]; omega
  · simp only [decide_eq_true_eq]
    unfold toInt32
    split_ifs <;> omega

/-- Concrete instance of `add_sub_with_flags_exact`: `0 - 1` borrows and
wraps to `0xFFFFFFFF` without signed overflow. -/
theorem add_sub_with_flags_exact_witness :
    (sub_with_flags 0 1).1 = 4294967295 ∧ (sub_with_flags 0 1).2.1 = true := by
  have h := add_sub_with_flags_exact 0 1 (by norm_num [U32]) (by norm_num [U32])
  exact ⟨by rw [h.2.2.2.1]; norm_num [U32], h.2.2.2.2.1.mpr (by norm_num)⟩

/-! ## C9: bit-field extract/insert round trip -/

/-- Claim C9: `get_bits32` and `set_bits32` are total functions (they are
defined for every input, with Rust release shift semantics), and for
every 32-bit word `w`, lsb `l` and length `n` with `l + n ≤ 32`,
`set_bits32 w l n (get_bits32 w l n) = w` — including the boundary cases
`n = 32` and `l + n = 32`. -/
theorem bits_round_trip (w l n : Nat) (hw : w < U32) (h : l + n ≤ 32) :
    set_bits32 w l n (get_bits32 w l n) = w := by
  have hU : U32 = 2 ^ 32 := by norm_num [U32]
  set L := l % 32 with hLdef
  set N := n % 32 with hNdef
  have hLN : L + N ≤ 32 := by
    rcases Nat.lt_or_ge l 32 with hl | hl
    · rcases Nat.lt_or_ge n 32 with hn | hn
      · rw [hLdef, hNdef, Nat.mod_eq_of_lt hl, Nat.mod_eq_of_lt hn]; exact h
      · have hn32 : n = 32 := by omega
        have hl0 : l = 0 := by omega
        subst hn32; subst hl0; simp [hLdef, hNdef]
    · have hl32 : l = 32 := by omega
      have hn0 : n = 0 := by omega
      subst hl32; subst hn0; simp [hLdef, hNdef]
  have hN31 : N < 32 := Nat.mod_lt _ (by norm_num)
  have h1N : (1 <<< N) % U32 = 2 ^ N := by
    rw [Nat.shiftLeft_eq, one_mul, hU]
    exact Nat.mod_eq_of_lt (Nat.pow_lt_pow_right (by norm_num) hN31)
  have hsmlt : (2 ^ N - 1) <<< L < 2 ^ 32 := by
    rw [Nat.shiftLeft_eq]
    calc (2 ^ N - 1) * 2 ^ L
        < 2 ^ N * 2 ^ L := by
          apply Nat.mul_lt_mul_of_lt_of_le
          · exact Nat.sub_lt (Nat.pos_pow_of_pos _ (by norm_num)) (by norm_num)
          · exact le_refl _
          · exact Nat.pos_pow_of_pos _ (by norm_num)
      _ = 2 ^ (N + L) := by rw [← pow_add]
      _ ≤ 2 ^ 32 := Nat.pow_le_pow_right (by norm_num) (by omega)
  have hsm : ((2 ^ N - 1) <<< L) % U32 = (2 ^ N - 1) <<< L := by
    rw [hU]; exact Nat.mod_eq_of_lt hsmlt
  have hrw : set_bits32 w l n (get_bits32 w l n)
      = (w &&& (4294967295 ^^^ (2 ^ N - 1) <<< L)) |||
        (((((w &&& (2 ^ N - 1) <<< L) >>> L) <<< L) % U32) &&& ((2 ^ N - 1) <<< L)) := by
    show (w &&& (4294967295 ^^^ ((1 <<< N) % U32 - 1) <<< L % U32)) |||
        ((((w &&& ((1 <<< N) % U32 - 1) <<< L % U32) >>> L) <<< L) % U32 &&&
          ((1 <<< N) % U32 - 1) <<< L % U32) = _
    rw [h1N, hsm]
  rw [hrw]
  apply Nat.eq_of_testBit_eq
  intro j
  have hsmbit : ∀ k, ((2 ^ N - 1) <<< L).testBit k = decide (L ≤ k ∧ k < L + N) := by
    intro k
    rw [Nat.testBit_shiftLeft, Nat.testBit_two_pow_sub_one]
    rcases Nat.lt_or_ge k L with hk | hk
    · have h1 : ¬ (L ≤ k) := by omega
      simp [h1]
    · have h1 : L ≤ k := hk
      have h2 : (k - L < N) = (k < L + N) := by
        apply propext; omega
      simp [h1, h2]
  have hFF : (4294967295 : Nat) = 2 ^ 32 - 1 := by norm_num
  rcases Nat.lt_or_ge j 32 with hj | hj
  · simp only [Nat.testBit_or, Nat.testBit_and, Nat.testBit_xor, hU,
      Nat.testBit_mod_two_pow, Nat.testBit_shiftLeft, Nat.testBit_shiftRight,
      hsmbit, hFF, Nat.testBit_two_pow_sub_one]
    rcases Nat.lt_or_ge j L with hjL | hjL
    · have h1 : decide (j < 32) = true := by simp [hj]
      have h2 : decide (L ≤ j ∧ j < L + N) = false := by simp; omega
      simp [h1, h2]
    · rcases Nat.lt_or_ge j (L + N) with hjN | hjN
      · have h1 : decide (j < 32) = true := by simp [hj]
        have h2 : decide (L ≤ j ∧ j < L + N) = true := by simp; omega
        have h3 : decide (L ≤ j) = true := by simp [hjL]
        have h4 : L + (j - L) = j := by omega
        simp [h1, h2, h3, h4]
      · have h1 : decide (j < 32) = true := by simp [hj]
        have h2 : decide (L ≤ j ∧ j < L + N) = false := by simp; omega
        simp [h1, h2]
  · have hw32 : w.testBit j = false :=
      Nat.testBit_lt_two_pow (lt_of_lt_of_le (hU ▸ hw) (Nat.pow_le_pow_right (by norm_num) hj))
    simp only [Nat.testBit_or, Nat.testBit_and, Nat.testBit_xor, hU,
      Nat.testBit_mod_two_pow, hsmbit, hFF, Nat.testBit_two_pow_sub_one, hw32]
    have h1 : decide (j < 32) = false := by simp; omega
    simp [h1]

/-- Concrete instance of `bits_round_trip` (interior field, and both
boundary shapes `n = 32` and `l + n = 32`). -/
theorem bits_round_trip_witness :
    set_bits32 0xABCD1234 8 12 (get_bits32 0xABCD1234 8 12) = 0xABCD1234 ∧
    set_bits32 0xABCD1234 0 32 (get_bits32 0xABCD1234 0 32) = 0xABCD1234 ∧
    set_bits32 0xABCD1234 20 12 (get_bits32 0xABCD1234 20 12) = 0xABCD1234 :=
  ⟨bits_round_trip 0xABCD1234 8 12 (by norm_num [U32]) (by norm_num),
   bits_round_trip 0xABCD1234 0 32 (by norm_num [U32]) (by norm_num),
   bits_round_trip 0xABCD1234 20 12 (by norm_num [U32]) (by norm_num)⟩

/-! ## C6: VRAM mirroring -/


/-- Claim C6, counterexample: The claim asserts that a read at VRAM offset
`0x18000` returns the same byte as a read at offset `0x10000`; on this
memory the former reads extent index `0x0` (value 1) and the latter
extent index `0x10000` (value 2). -/
theorem vram_mirror_claim_false :
    Memory.read_u8 memC6 0x6018000 ≠ Memory.read_u8 memC6 0x6010000 := by
  decide

/-- Claim C6, amended: For every address in the video-RAM window, the bus
reduces the offset modulo 128 KiB and folds offsets
`0x18000..=0x1FFFF` back to `0x00000..=0x07FFF` (the **first** 32 KiB of
the 96 KiB extent, by subtracting `0x18000`), so a read at offset
`0x18000` returns the same byte as a read at offset `0x00000`. -/
theorem vram_mirror_folds_to_first_half (m : Memory) (off : Nat)
    (h1 : 0x18000 ≤ off) (h2 : off ≤ 0x1FFFF) :
    Memory.read_u8 m (0x6000000 + off) = Memory.read_u8 m (0x6000000 + (off - 0x18000)) := by
  have key : ∀ off', off' ≤ 0x1FFFF →
      Memory.read_u8 m (0x6000000 + off') = some (m.vram (vram_index (0x6000000 + off') 0x6000000)) := by
    intro off' hoff'
    unfold Memory.read_u8 Memory._read_u8
    rw [if_neg (by omega), if_neg (by omega : ¬(0x2000000 ≤ 0x6000000 + off' ∧ 0x6000000 + off' ≤ 0x2FFFFFF)),
        if_neg (by omega : ¬(0x3000000 ≤ 0x6000000 + off' ∧ 0x6000000 + off' ≤ 0x3FFFFFF)),
        if_neg (by omega : ¬(0x4000000 ≤ 0x6000000 + off' ∧ 0x6000000 + off' ≤ 0x40003FE)),
        if_neg (by omega : ¬(0x5000000 ≤ 0x6000000 + off' ∧ 0x6000000 + off' ≤ 0x5FFFFFF)),
        if_pos (by omega : (0x6000000 ≤ 0x6000000 + off' ∧ 0x6000000 + off' ≤ 0x6FFFFFF))]
  rw [key off h2, key (off - 0x18000) (by omega)]
  have hv : vram_index (0x6000000 + off) 0x6000000
      = vram_index (0x6000000 + (off - 0x18000)) 0x6000000 := by
    unfold vram_index VRAM_LEN
    have e1 : (0x6000000 + off - 0x6000000) % 0x20000 = off := by omega
    have e2 : (0x6000000 + (off - 0x18000) - 0x6000000) % 0x20000 = off - 0x18000 := by omega
    rw [e1, e2, if_pos (by omega : off ≥ 0x18000), if_neg (by omega : ¬(off - 0x18000 ≥ 0x18000))]
  rw [hv]

/-- Concrete instance of `vram_mirror_folds_to_first_half` at
offset `0x18000`. -/
theorem vram_mirror_folds_to_first_half_witness :
    Memory.read_u8 memC6 0x6018000 = Memory.read_u8 memC6 0x6000000 :=
  vram_mirror_folds_to_first_half memC6 0x18000 (by norm_num) (by norm_num)

/-! ## C7: on-chip WRAM length and mirroring -/


/-- Claim C7, code bug: The claim (and the memory-map comment at the top
of `memory.rs`) gives the on-chip WRAM a physical length of 32 KiB
(`0x8000`) with the first mirror at distance `0x8000`; the code declares
`WRAM2_LEN = 0x800` (2 KiB), so a byte written at `0x03000000` is read
back already at `0x03000800`, a mirror distance of only `0x800`. -/
theorem wram2_length_bug :
    WRAM2_LEN = 0x800 ∧
    (Memory.write_u8 memZero 0x3000000 0xAB).2 = none ∧
    Memory.read_u8 (Memory.write_u8 memZero 0x3000000 0xAB).1 0x3000800 = some 0xAB ∧
    Memory.read_u8 memZero 0x3000800 = some 0 := by
  refine ⟨rfl, rfl, ?_, rfl⟩
  decide

/-! ## C10: multi-byte stores are not atomic -/

/-- Claim C10: `write_u16` and `write_u32` issue their byte writes in
ascending address order, so a store that starts at the writable tail of
the I/O region (`0x040003FE` for 16-bit, `0x040003FC` for 32-bit) but
whose last byte address `0x040003FF` is unmapped commits the bytes at
the lower addresses to the I/O backing store before raising the
unmapped-write error. -/
theorem store_bytes_ascending (m : Memory) (v : Nat) :
    (Memory.write_u16 m 0x40003FE v).2 = some "Write to unmapped address" ∧
    Memory.read_u8 (Memory.write_u16 m 0x40003FE v).1 0x40003FE = some (v % 256) ∧
    (Memory.write_u32 m 0x40003FC v).2 = some "Write to unmapped address" ∧
    Memory.read_u8 (Memory.write_u32 m 0x40003FC v).1 0x40003FC = some (v % 256) ∧
    Memory.read_u8 (Memory.write_u32 m 0x40003FC v).1 0x40003FD = some (v / 256 % 256) ∧
    Memory.read_u8 (Memory.write_u32 m 0x40003FC v).1 0x40003FE = some (v / 65536 % 256) := by
  unfold Memory.write_u32 Memory.write_u16 Memory._write_u8 Memory.read_u8 Memory._read_u8 setIdx
  norm_num [Nat.shiftRight_eq_div_pow]
  omega

/-! ## C5: misaligned word loads -/





/-- Claim C5, code bug: The claim (and the ARM architecture) requires a
misaligned word load to deliver the loaded word rotated right by
`8·(addr mod 4)` bits; `LoadStore::execute` writes `mem.read_u32(address)`
to the destination with no rotation.  At address `0x02000002` the code
stores `0x66554433` into R1, whereas the claimed rotated value is
`rotate_right32 0x66554433 16 = 0x44336655`. -/
theorem ldr_misaligned_word_not_rotated :
    (LoadStore.execute ldrMis cpuC5 memC5).map (fun p => p.1.r 1) = some 0x66554433 ∧
    rotate_right32 0x66554433 (8 * (0x2000002 % 4)) = 0x44336655 ∧
    (0x66554433 : Nat) ≠ 0x44336655 := by
  refine ⟨rfl, by decide, by norm_num⟩

/-! ## C8: MSR privilege and error rules -/

/-- Bit `i < 32` of the `u32` all-ones mask is set. -/
theorem testBit_u32max {i : Nat} (h : i < 32) : Nat.testBit 4294967295 i = true := by
  have e : (4294967295 : Nat) = 2 ^ 32 - 1 := by norm_num
  rw [e, Nat.testBit_two_pow_sub_one]
  simpa using h

/-- Bits below 28 of `USER_MASK` (`0xF0000000`) are clear. -/
theorem userMask_testBit {i : Nat} (h : i < 28) : Nat.testBit Msr.USER_MASK i = false := by
  have e : (Msr.USER_MASK : Nat) = 2 ^ 28 * 15 := by norm_num [Msr.USER_MASK]
  rw [e, Nat.testBit_mul_pow_two]
  have hni : ¬ (28 ≤ i) := by omega
  simp [hni]

/-- Bits below 4 of `USER_MASK ||| PRIV_MASK` (`0xF000000F`) are set. -/
theorem userPrivMask_testBit_lo {i : Nat} (hi : i < 4) :
    Nat.testBit (Msr.USER_MASK ||| Msr.PRIV_MASK) i = true := by
  rw [Nat.testBit_or]
  have e : (Msr.PRIV_MASK : Nat) = 2 ^ 4 - 1 := by norm_num [Msr.PRIV_MASK]
  rw [e, Nat.testBit_two_pow_sub_one]
  simp [hi]

/-- Bits 4..=27 of `USER_MASK ||| PRIV_MASK` (`0xF000000F`) are clear:
the privileged CPSR write mask skips mode bit 4, the T bit and the
I/F interrupt masks. -/
theorem userPrivMask_testBit_mid {i : Nat} (h4 : 4 ≤ i) (h28 : i < 28) :
    Nat.testBit (Msr.USER_MASK ||| Msr.PRIV_MASK) i = false := by
  rw [Nat.testBit_or]
  have e : (Msr.PRIV_MASK : Nat) = 2 ^ 4 - 1 := by norm_num [Msr.PRIV_MASK]
  rw [e, Nat.testBit_two_pow_sub_one, userMask_testBit h28]
  have hni : ¬ (i < 4) := by omega
  simp [hni]

/-- With the control lane selected, the byte-lane mask covers every bit
below 8. -/
theorem laneMask_testBit_lo {fm : Nat} {i : Nat} (hi : i < 8)
    (h0 : get_bit fm 0 = true) :
    Nat.testBit (Msr.laneMask fm) i = true := by
  unfold Msr.laneMask
  rw [show List.range 4 = [0, 1, 2, 3] from rfl]
  simp only [List.foldl_cons, List.foldl_nil]
  rw [h0, if_pos rfl]
  have htb255 : Nat.testBit 255 i = true := by
    have e : (255 : Nat) = 2 ^ 8 - 1 := by norm_num
    rw [e, Nat.testBit_two_pow_sub_one]
    simpa using hi
  have hmod : ∀ X : Nat, X % 256 = 255 → Nat.testBit X i = true := by
    intro X hX
    have h2 := Nat.testBit_mod_two_pow X 8 i
    rw [show (2 : Nat) ^ 8 = 256 from by norm_num, hX, htb255] at h2
    have hd : decide (i < 8) = true := by simpa using hi
    rw [hd, Bool.true_and] at h2
    exact h2.symm
  split_ifs <;> exact hmod _ (by decide)

/-- Reduction of the CPSR branch of `Msr::execute` in USR (unprivileged)
mode: the write succeeds and is masked by `USER_MASK`. -/
theorem msr_execute_usr_cpsr {ins : Msr} {c : CPU} {op : Nat}
    (hr : ins.r = false) (hop : Msr.operandOf ins c = some op)
    (hpriv : c.in_a_privileged_mode = false)
    (hu : op &&& Msr.UNALLOC_MASK = 0) :
    Msr.execute ins c = .ok { c with cpsr :=
      (c.cpsr &&& (4294967295 ^^^ (Msr.laneMask ins.field_mask &&& Msr.USER_MASK))) |||
      (op &&& (Msr.laneMask ins.field_mask &&& Msr.USER_MASK)) } := by
  simp only [Msr.execute, hop, if_neg (show ¬ op &&& Msr.UNALLOC_MASK ≠ 0 by simp [hu]),
    hr, Bool.not_false, if_true, hpriv, Bool.false_eq_true, if_false]

/-- Reduction of the CPSR branch of `Msr::execute` in a privileged mode
with a T-clear operand: the write succeeds and is masked by
`USER_MASK ||| PRIV_MASK`. -/
theorem msr_execute_priv_cpsr {ins : Msr} {c : CPU} {op : Nat}
    (hr : ins.r = false) (hop : Msr.operandOf ins c = some op)
    (hpriv : c.in_a_privileged_mode = true)
    (hu : op &&& Msr.UNALLOC_MASK = 0) (hst : op &&& Msr.STATE_MASK = 0) :
    Msr.execute ins c = .ok { c with cpsr :=
      (c.cpsr &&& (4294967295 ^^^
        (Msr.laneMask ins.field_mask &&& (Msr.USER_MASK ||| Msr.PRIV_MASK)))) |||
      (op &&& (Msr.laneMask ins.field_mask &&& (Msr.USER_MASK ||| Msr.PRIV_MASK))) } := by
  simp only [Msr.execute, hop, if_neg (show ¬ op &&& Msr.UNALLOC_MASK ≠ 0 by simp [hu]),
    hr, Bool.not_false, if_true, hpriv,
    if_neg (show ¬ op &&& Msr.STATE_MASK ≠ 0 by simp [hst])]

/-- Claim C8, counterexample: the claim as stated fails on the code in
two places.  (i) "in privileged modes the control byte is writable":
in SVC mode, `MSR CPSR_c, #0x93` — whose operand has the I bit (bit 7)
set — returns success with CPSR completely unchanged, because
`PRIV_MASK = 0x0F` discards control-byte bits 4-7; so bit 7 of the
control byte is not writable.  (ii) "an MSR whose operand would set the
T-bit is an error": a USR-mode CPSR write with a T-set operand succeeds
silently (the T bit is masked off), and an MSR to SPSR stores the T-set
operand into the SPSR without any error. -/
theorem msr_privilege_claim_false :
    Msr.execute msrCtrlI cpuSvc = .ok cpuSvc ∧
    get_bit 0x93 7 = true ∧ get_bit cpuSvc.cpsr 7 = false ∧
    Msr.execute msrTset cpuUsr = .ok cpuUsr ∧
    Msr.execute msrTspsr cpuSvc = .ok { cpuSvc with spsr_svc := 0x20 } := by
  exact ⟨rfl, by decide, by decide, rfl, rfl⟩

/-- Claim C8, amended: MSR privilege and error rules of `Msr::execute`:
(1) in USR mode a CPSR write (with a reserved-clean operand) always
succeeds and changes at most the flag byte — bits 0..=23, including a
T bit requested by the operand, are untouched;
(2) in a privileged mode only bits 0-3 of the control byte are writable
in addition: with the control lane selected they receive the operand's
low nibble, while bits 4..=27 (mode bit 4, the T bit and the I/F
interrupt masks among them) are never changed;
(3) a privileged CPSR write whose operand would set the T-bit
(`STATE_MASK`) is the non-ARM-execution-state error;
(4) an operand with reserved (`UNALLOC_MASK`) bits set is an error;
(5) an MSR targeting SPSR while in USR or SYS mode is an error. -/
theorem msr_privilege_rules_amended :
    (∀ (ins : Msr) (c : CPU) (op : Nat), ins.r = false → c.get_mode = MODE_USR →
       Msr.operandOf ins c = some op → op &&& Msr.UNALLOC_MASK = 0 →
       ∃ c', Msr.execute ins c = .ok c' ∧
         ∀ i, i < 24 → c'.cpsr.testBit i = c.cpsr.testBit i) ∧
    (∀ (ins : Msr) (c : CPU) (op : Nat) (c' : CPU), ins.r = false →
       Msr.operandOf ins c = some op → c.in_a_privileged_mode = true →
       op &&& Msr.UNALLOC_MASK = 0 → op &&& Msr.STATE_MASK = 0 →
       Msr.execute ins c = .ok c' →
       (∀ i, i < 4 → get_bit ins.field_mask 0 = true →
          c'.cpsr.testBit i = Nat.testBit op i) ∧
       (∀ i, 4 ≤ i → i < 28 → c'.cpsr.testBit i = c.cpsr.testBit i)) ∧
    (∀ (ins : Msr) (c : CPU) (op : Nat), ins.r = false → Msr.operandOf ins c = some op →
       c.in_a_privileged_mode = true → op &&& Msr.UNALLOC_MASK = 0 →
       op &&& Msr.STATE_MASK ≠ 0 →
       Msr.execute ins c = .error "Attempt to set non-ARM execution state") ∧
    (∀ (ins : Msr) (c : CPU) (op : Nat), Msr.operandOf ins c = some op →
       op &&& Msr.UNALLOC_MASK ≠ 0 →
       Msr.execute ins c = .error "Attempt to set reserved bits") ∧
    (∀ (ins : Msr) (c : CPU) (op : Nat), ins.r = true → Msr.operandOf ins c = some op →
       op &&& Msr.UNALLOC_MASK = 0 → (c.get_mode = MODE_USR ∨ c.get_mode = MODE_SYS) →
       Msr.execute ins c = .error "Tried to set SPSR in user or system mode") := by
  refine ⟨?_, ?_, ?_, ?_, ?_⟩
  · intro ins c op hr hm hop hu
    have hpriv : c.in_a_privileged_mode = false := by
      unfold CPU.in_a_privileged_mode
      rw [hm]; rfl
    refine ⟨_, msr_execute_usr_cpsr hr hop hpriv hu, ?_⟩
    intro i hi
    have hUSER : Nat.testBit Msr.USER_MASK i = false := userMask_testBit (by omega)
    have hFF : Nat.testBit 4294967295 i = true := testBit_u32max (by omega)
    simp [Nat.testBit_or, Nat.testBit_and, Nat.testBit_xor, hUSER, hFF]
  · intro ins c op c' hr hop hpriv hu hst hexec
    rw [msr_execute_priv_cpsr hr hop hpriv hu hst] at hexec
    have hc' : { c with cpsr :=
        (c.cpsr &&& (4294967295 ^^^
          (Msr.laneMask ins.field_mask &&& (Msr.USER_MASK ||| Msr.PRIV_MASK)))) |||
        (op &&& (Msr.laneMask ins.field_mask &&& (Msr.USER_MASK ||| Msr.PRIV_MASK))) } = c' := by
      injection hexec
    rw [← hc']
    constructor
    · intro i hi hl0
      have hlane : Nat.testBit (Msr.laneMask ins.field_mask) i =
          true := laneMask_testBit_lo (by omega) hl0
      have hup : Nat.testBit (Msr.USER_MASK ||| Msr.PRIV_MASK) i =
          true := userPrivMask_testBit_lo hi
      have hFF : Nat.testBit 4294967295 i = true := testBit_u32max (by omega)
      simp [Nat.testBit_or, Nat.testBit_and, Nat.testBit_xor, hlane, hup, hFF]
    · intro i h4 h28
      have hup : Nat.testBit (Msr.USER_MASK ||| Msr.PRIV_MASK) i =
          false := userPrivMask_testBit_mid h4 h28
      have hFF : Nat.testBit 4294967295 i = true := testBit_u32max (by omega)
      simp [Nat.testBit_or, Nat.testBit_and, Nat.testBit_xor, hup, hFF]
  · intro ins c op hr hop hpriv hu hst
    simp only [Msr.execute, hop, if_neg (show ¬ op &&& Msr.UNALLOC_MASK ≠ 0 by simp [hu]),
      hr, Bool.not_false, if_true, hpriv, if_pos hst]
  · intro ins c op hop hu
    simp only [Msr.execute, hop, if_pos hu]
  · intro ins c op hr hop hu hmode
    have hspsr : c.current_mode_has_spsr = false := by
      unfold CPU.current_mode_has_spsr
      rcases hmode with hm | hm <;> rw [hm] <;> rfl
    simp only [Msr.execute, hop, if_neg (show ¬ op &&& Msr.UNALLOC_MASK ≠ 0 by simp [hu]),
      hr, Bool.not_true, Bool.false_eq_true, if_false, hspsr]

/-- Concrete instances of the hypothesis-bearing conjuncts of
`msr_privilege_rules_amended`: a USR-mode flag-lane write succeeds with
CPSR bit 0 unchanged; an SVC-mode control-lane write of `#0x1F` lands
the operand's low nibble in CPSR bit 2 while leaving bit 6 alone;
privileged T-setting, reserved-bits and USR-mode-SPSR writes raise the
claimed errors. -/
theorem msr_privilege_rules_amended_witness :
    (∃ c', Msr.execute msrFlags cpuUsr = .ok c' ∧
       c'.cpsr.testBit 0 = cpuUsr.cpsr.testBit 0) ∧
    (Nat.testBit (CPU.cpsr { cpuSvc with cpsr := 0x1F }) 2 = Nat.testBit 0x1F 2 ∧
     Nat.testBit (CPU.cpsr { cpuSvc with cpsr := 0x1F }) 6 = Nat.testBit cpuSvc.cpsr 6) ∧
    Msr.execute msrTset cpuSvc = .error "Attempt to set non-ARM execution state" ∧
    Msr.execute { mode := .Immediate 0x100, field_mask := 0xF, r := false } cpuSvc
      = .error "Attempt to set reserved bits" ∧
    Msr.execute { mode := .Immediate 0, field_mask := 0xF, r := true } cpuUsr
      = .error "Tried to set SPSR in user or system mode" := by
  refine ⟨?_, ?_, ?_, ?_, ?_⟩
  · obtain ⟨c', hc', hbits⟩ := msr_privilege_rules_amended.1 msrFlags cpuUsr 0xF0000000
      rfl (by decide) rfl (by decide)
    exact ⟨c', hc', hbits 0 (by norm_num)⟩
  · have h := msr_privilege_rules_amended.2.1 msrCtrl cpuSvc 0x1F { cpuSvc with cpsr := 0x1F }
      rfl rfl (by decide) (by decide) (by decide) rfl
    exact ⟨h.1 2 (by norm_num) (by decide), h.2 6 (by norm_num) (by norm_num)⟩
  · exact msr_privilege_rules_amended.2.2.1 msrTset cpuSvc 0x20
      rfl rfl (by decide) (by decide) (by decide)
  · exact msr_privilege_rules_amended.2.2.2.1
      { mode := .Immediate 0x100, field_mask := 0xF, r := false } cpuSvc 0x100
      rfl (by decide)
  · exact msr_privilege_rules_amended.2.2.2.2
      { mode := .Immediate 0, field_mask := 0xF, r := true } cpuUsr 0
      rfl rfl (by decide) (Or.inl (by decide))

/-! ## C2: step-loop PC discipline -/

/-- Claim C2: For every call to `CPU::cycle` in which the executed
operation performs no write to register 15 — formalised as: the
operation leaves `r15`, the `branch_happened` flag (which `set_r_in_mode`
raises exactly on r15 writes) and the Thumb bit unchanged — and
including the case where the ARM condition check fails, the value of
register 15 after the step equals its value before the step plus the
instruction width (4 with T clear, 2 with T set), in `u32` arithmetic;
and the CPU state on which the operation executes (`execStageCPU`) reads
register 15 as the executing instruction's address plus twice that
width. -/
theorem cycle_pc_discipline (exec : CPU → Memory → CPU × Memory) (c : CPU) (m : Memory)
    (p : CPU × Memory)
    (hexec : ∀ s t, ((exec s t).1.r 15 = s.r 15) ∧
      ((exec s t).1.branch_happened = s.branch_happened) ∧
      ((exec s t).1.get_thumb_state = s.get_thumb_state))
    (h : CPU.cycle exec c m = some p) :
    p.1.r 15 = wrap32 (c.r 15 + c.instruction_len_in_bytes) ∧
    (CPU.execStageCPU c).r 15 = wrap32 (c.r 15 + 2 * c.instruction_len_in_bytes) := by
  have hstage : (CPU.execStageCPU c).r 15 = wrap32 (c.r 15 + 2 * c.instruction_len_in_bytes) := by
    have h15 : c.advancePC.r 15 = wrap32 (c.r 15 + c.instruction_len_in_bytes) := by
      show setIdx c.r 15 (wrap32 (c.r 15 + c.instruction_len_in_bytes)) 15 = _
      exact setIdx_same _ _ _
    have hlen : c.advancePC.instruction_len_in_bytes = c.instruction_len_in_bytes := rfl
    show setIdx c.advancePC.r 15
        (wrap32 (c.advancePC.r 15 + c.advancePC.instruction_len_in_bytes)) 15 = _
    rw [setIdx_same, hlen, h15]
    unfold wrap32 U32
    omega
  refine ⟨?_, hstage⟩
  have hphase : (CPU.execPhase exec c m).1.r 15 = wrap32 (c.r 15 + c.instruction_len_in_bytes) := by
    obtain ⟨he15, hebr, heth⟩ := hexec c.execStageCPU m
    unfold CPU.execPhase
    set X := (exec c.execStageCPU m).1 with hX
    have hbr : X.branch_happened = false := hebr
    have hth : X.instruction_len_in_bytes = c.instruction_len_in_bytes := by
      unfold CPU.instruction_len_in_bytes
      rw [show X.get_thumb_state = c.get_thumb_state from heth]
    have h15 : X.r 15 = wrap32 (c.r 15 + 2 * c.instruction_len_in_bytes) := he15.trans hstage
    dsimp only
    rw [hbr]
    rw [if_neg (by simp)]
    show setIdx X.r 15 (wrap32 (X.r 15 + U32 - X.instruction_len_in_bytes)) 15 = _
    rw [setIdx_same, h15, hth]
    have hlen24 : c.instruction_len_in_bytes = 2 ∨ c.instruction_len_in_bytes = 4 := by
      unfold CPU.instruction_len_in_bytes
      split_ifs <;> simp [INSTRUCTION_LEN_THUMB, INSTRUCTION_LEN_ARM]
    unfold wrap32 U32
    rcases hlen24 with hl | hl <;> rw [hl] <;> omega
  unfold CPU.cycle at h
  split at h
  · -- Thumb path
    split at h
    · simp only [Option.some.injEq] at h
      rw [← h]
      exact hphase
    · exact absurd h (by simp)
  · -- ARM path
    split at h
    · exact absurd h (by simp)
    · split at h
      · exact absurd h (by simp)
      · split at h
        · simp only [Option.some.injEq] at h
          rw [← h]
          exact hphase
        · simp only [Option.some.injEq] at h
          rw [← h]
          show c.advancePC.r 15 = _
          show setIdx c.r 15 (wrap32 (c.r 15 + c.instruction_len_in_bytes)) 15 = _
          exact setIdx_same _ _ _


/-- Concrete instance of `cycle_pc_discipline`: one ARM step from
`PC = 0` (the fetched word `0x00000000` decodes to condition `EQ`, which
fails with Z clear) leaves `PC = 4`, and the execution-stage PC is 8. -/
theorem cycle_pc_discipline_witness :
    ∃ p, CPU.cycle idExec cpuSvc memZero = some p ∧
      p.1.r 15 = 4 ∧ (CPU.execStageCPU cpuSvc).r 15 = 8 := by
  have h : CPU.cycle idExec cpuSvc memZero = some (cpuSvc.advancePC, memZero) := rfl
  have hres := cycle_pc_discipline idExec cpuSvc memZero (cpuSvc.advancePC, memZero)
    (fun _ _ => ⟨rfl, rfl, rfl⟩) h
  exact ⟨(cpuSvc.advancePC, memZero), h, hres.1.trans rfl, hres.2.trans rfl⟩

/-! ## C1: register-bank routing invariant -/

/-- Only the seven valid modes have a banked-register slice. -/
theorem validMode_of_bankedLen {m len : Nat} (h : CPU.bankedLen m = some len) :
    ValidMode m := by
  unfold CPU.bankedLen at h
  unfold ValidMode
  split_ifs at h <;> tauto

/-- Every valid mode has a banked-register slice. -/
theorem bankedLen_of_validMode {m : Nat} (h : ValidMode m) :
    ∃ len, CPU.bankedLen m = some len := by
  rcases h with rfl | rfl | rfl | rfl | rfl | rfl | rfl <;> exact ⟨_, rfl⟩

/-- Lemma: `isBanked` matches the branch condition of `get_r_in_mode` and
`set_r_in_mode`. -/
theorem isBanked_iff {rn m len : Nat} (hbl : CPU.bankedLen m = some len) :
    isBanked rn m = true ↔ (15 - len ≤ rn ∧ rn < 15) := by
  unfold isBanked
  rw [hbl]
  simp

/-- A positive banked length pins the mode to one of the five modes with
shadow registers. -/
theorem banked_mode_cases {m len : Nat} (hbl : CPU.bankedLen m = some len)
    (hpos : 0 < len) :
    m = MODE_SVC ∨ m = MODE_ABT ∨ m = MODE_UND ∨ m = MODE_IRQ ∨ m = MODE_FIQ := by
  unfold CPU.bankedLen at hbl
  split_ifs at hbl <;> simp_all

/-- Writing a banked slot of mode `m` updates that mode's array pointwise. -/
theorem bankedGet_setBanked_same (c : CPU) {m : Nat} (i v : Nat)
    (h5 : m = MODE_SVC ∨ m = MODE_ABT ∨ m = MODE_UND ∨ m = MODE_IRQ ∨ m = MODE_FIQ) :
    CPU.bankedGet (CPU.setBanked c m i v) m = setIdx (CPU.bankedGet c m) i v := by
  rcases h5 with rfl | rfl | rfl | rfl | rfl <;>
    simp [CPU.setBanked, CPU.bankedGet, MODE_SVC, MODE_ABT, MODE_UND, MODE_IRQ, MODE_FIQ]

/-- Writing a banked slot of mode `m'` leaves every other mode's banked
array untouched. -/
theorem bankedGet_setBanked_other (c : CPU) {m m' : Nat} (i v : Nat)
    (h5 : m' = MODE_SVC ∨ m' = MODE_ABT ∨ m' = MODE_UND ∨ m' = MODE_IRQ ∨ m' = MODE_FIQ)
    (hne : m ≠ m') :
    CPU.bankedGet (CPU.setBanked c m' i v) m = CPU.bankedGet c m := by
  rcases h5 with rfl | rfl | rfl | rfl | rfl <;>
    · simp only [CPU.setBanked, MODE_SVC, MODE_ABT, MODE_UND, MODE_IRQ, MODE_FIQ]
      norm_num
      unfold CPU.bankedGet
      split_ifs <;> first | rfl | (exfalso; omega)

/-- Lemma: `setBanked` never touches the unbanked array. -/
theorem setBanked_r (c : CPU) (m i v : Nat) :
    (CPU.setBanked c m i v).r = c.r := by
  unfold CPU.setBanked
  split_ifs <;> rfl

/-- Unfolding of `get_r_in_mode` with a known banked length. -/
theorem get_r_in_mode_eq (c : CPU) (rn : Nat) {m len : Nat}
    (hbl : CPU.bankedLen m = some len) :
    CPU.get_r_in_mode c rn m =
      if 15 - len ≤ rn ∧ rn < 15 then some (CPU.bankedGet c m (rn - (15 - len)))
      else if rn < 16 then some (c.r rn) else none := by
  unfold CPU.get_r_in_mode
  rw [hbl]

/-- Unfolding of `set_r_in_mode` with a known banked length. -/
theorem set_r_in_mode_eq (c : CPU) (rn v : Nat) {m len : Nat}
    (hbl : CPU.bankedLen m = some len) :
    CPU.set_r_in_mode c rn m v =
      if 15 - len ≤ rn ∧ rn < 15 then some (CPU.setBanked c m (rn - (15 - len)) v)
      else if rn < 16 then
        some (if rn = 15 then { { c with r := setIdx c.r rn v } with branch_happened := true }
              else { c with r := setIdx c.r rn v })
      else none := by
  unfold CPU.set_r_in_mode
  rw [hbl]

/-- Lemma: `set_r_in_mode` panics on an invalid mode. -/
theorem set_r_in_mode_none (c : CPU) (rn v : Nat) {m : Nat}
    (hbl : CPU.bankedLen m = none) :
    CPU.set_r_in_mode c rn m v = none := by
  unfold CPU.set_r_in_mode
  rw [hbl]

/-- Case analysis of a successful `set_r_in_mode`. -/
theorem set_r_in_mode_cases {c c' : CPU} {rn m v : Nat}
    (hset : CPU.set_r_in_mode c rn m v = some c') :
    ∃ len, CPU.bankedLen m = some len ∧
      (((15 - len ≤ rn ∧ rn < 15) ∧ c' = CPU.setBanked c m (rn - (15 - len)) v) ∨
       (¬(15 - len ≤ rn ∧ rn < 15) ∧ rn < 16 ∧
         c'.r = setIdx c.r rn v ∧
         (∀ m'', CPU.bankedGet c' m'' = CPU.bankedGet c m''))) := by
  cases hbl : CPU.bankedLen m with
  | none => rw [set_r_in_mode_none c rn v hbl] at hset; exact absurd hset (by simp)
  | some len =>
    rw [set_r_in_mode_eq c rn v hbl] at hset
    refine ⟨len, rfl, ?_⟩
    by_cases h1 : 15 - len ≤ rn ∧ rn < 15
    · rw [if_pos h1] at hset
      injection hset with h
      exact Or.inl ⟨h1, h.symm⟩
    · rw [if_neg h1] at hset
      by_cases h2 : rn < 16
      · rw [if_pos h2] at hset
        injection hset with h
        refine Or.inr ⟨h1, h2, ?_, ?_⟩
        · rw [← h]
          split_ifs <;> rfl
        · intro m''
          rw [← h]
          split_ifs <;> (unfold CPU.bankedGet; split_ifs <;> rfl)
      · rw [if_neg h2] at hset
        exact absurd hset (by simp)

/-- The unbanked array after `setBanked` is unchanged (projection form
with the branch-flag wrapper as well). -/
theorem bankedGet_update_r (c : CPU) (f : Nat → Nat) (m : Nat) :
    CPU.bankedGet { c with r := f } m = CPU.bankedGet c m := by
  unfold CPU.bankedGet
  split_ifs <;> rfl

/-- Unfolding of `relevantWrite` on a concrete write operation. -/
theorem relevantWrite_write (rn mode rn' m' v : Nat) :
    relevantWrite rn mode (.write rn' m' v)
      = (decide (rn' = rn) &&
         (if isBanked rn mode then decide (m' = mode) else !isBanked rn m')) := rfl

/-- Unfolding of `lastRelevant` on a cons whose tail holds a routed write. -/
theorem lastRelevant_cons_some {t : List RegOp} {rn mode : Nat} {x : Nat} (op : RegOp)
    (h : lastRelevant t rn mode = some x) :
    lastRelevant (op :: t) rn mode = some x := by
  unfold lastRelevant
  rw [h]

/-- Unfolding of `lastRelevant` on a cons whose tail holds no routed write. -/
theorem lastRelevant_cons_none {t : List RegOp} {rn mode : Nat} (op : RegOp)
    (h : lastRelevant t rn mode = none) :
    lastRelevant (op :: t) rn mode
      = if relevantWrite rn mode op then some op.value else none := by
  unfold lastRelevant
  rw [h]

/-- A routed write is the value returned by a subsequent read. -/
theorem get_set_relevant {c c' : CPU} {rn mode rn' m' v : Nat}
    (hmode : ValidMode mode) (hrn : rn < 16)
    (hrel : relevantWrite rn mode (.write rn' m' v) = true)
    (hset : CPU.set_r_in_mode c rn' m' v = some c') :
    CPU.get_r_in_mode c' rn mode = some v := by
  obtain ⟨len, hbl⟩ := bankedLen_of_validMode hmode
  obtain ⟨len', hbl', hcase⟩ := set_r_in_mode_cases hset
  rw [relevantWrite_write] at hrel
  simp only [Bool.and_eq_true, decide_eq_true_eq] at hrel
  obtain ⟨hrneq, hroute⟩ := hrel
  have hrneq' : rn = rn' := hrneq.symm
  subst hrneq'
  rw [get_r_in_mode_eq c' rn hbl]
  by_cases hb : isBanked rn mode = true
  · -- the read consults the banked array of `mode`
    rw [if_pos ((isBanked_iff hbl).mp hb)]
    rw [if_pos hb] at hroute
    have hmeq : m' = mode := by simpa using hroute
    subst hmeq
    have hlen_eq : len' = len := by
      rw [hbl] at hbl'
      injection hbl' with h
      omega
    subst hlen_eq
    have hbrange := (isBanked_iff hbl).mp hb
    rcases hcase with ⟨hrange, hc'⟩ | ⟨hnrange, _, _, _⟩
    · subst hc'
      have hpos : 0 < len' := by omega
      rw [bankedGet_setBanked_same c _ v (banked_mode_cases hbl hpos), setIdx_same]
    · exact absurd hbrange hnrange
  · -- the read consults the unbanked array
    have hnb : ¬(15 - len ≤ rn ∧ rn < 15) := fun hh => hb ((isBanked_iff hbl).mpr hh)
    rw [if_neg hnb, if_pos hrn]
    rw [if_neg (by simpa using hb)] at hroute
    have hnb' : isBanked rn m' = false := by simpa using hroute
    rcases hcase with ⟨hrange, _⟩ | ⟨_, _, hr, _⟩
    · exact absurd ((isBanked_iff hbl').mpr hrange) (by simp [hnb'])
    · rw [hr, setIdx_same]

/-- A write routed elsewhere leaves the read unchanged. -/
theorem get_set_irrelevant {c c' : CPU} {rn mode rn' m' v : Nat}
    (hmode : ValidMode mode) (hrn : rn < 16)
    (hrel : relevantWrite rn mode (.write rn' m' v) = false)
    (hset : CPU.set_r_in_mode c rn' m' v = some c') :
    CPU.get_r_in_mode c' rn mode = CPU.get_r_in_mode c rn mode := by
  obtain ⟨len, hbl⟩ := bankedLen_of_validMode hmode
  obtain ⟨len', hbl', hcase⟩ := set_r_in_mode_cases hset
  rw [relevantWrite_write] at hrel
  simp only [Bool.and_eq_false_iff] at hrel
  rw [get_r_in_mode_eq c' rn hbl, get_r_in_mode_eq c rn hbl]
  by_cases hb : isBanked rn mode = true
  · -- read from the banked array of `mode`
    rw [if_pos ((isBanked_iff hbl).mp hb)]
    rw [if_pos ((isBanked_iff hbl).mp hb)]
    rcases hcase with ⟨hrange, hc'⟩ | ⟨hnrange, _, _, hbg⟩
    · -- the write went to the banked array of `m'`
      have hpos' : 0 < len' := by omega
      have h5' := banked_mode_cases hbl' hpos'
      subst hc'
      by_cases hmeq : m' = mode
      · subst hmeq
        have hlen_eq : len' = len := by
          rw [hbl] at hbl'
          injection hbl' with h
          omega
        subst hlen_eq
        -- same array: the registers must differ
        have hrne : rn' ≠ rn := by
          intro he
          subst he
          rcases hrel with hrel | hrel
          · simp at hrel
          · rw [if_pos hb] at hrel
            simp at hrel
        rw [bankedGet_setBanked_same c _ v h5']
        rw [setIdx_other]
        have hbrange := (isBanked_iff hbl).mp hb
        omega
      · rw [bankedGet_setBanked_other c _ v h5' (fun he => hmeq he.symm)]
    · -- the write went to the unbanked array
      rw [hbg mode]
  · -- read from the unbanked array
    have hnb : ¬(15 - len ≤ rn ∧ rn < 15) := fun hh => hb ((isBanked_iff hbl).mpr hh)
    rw [if_neg hnb, if_pos hrn, if_neg hnb, if_pos hrn]
    rcases hcase with ⟨hrange, hc'⟩ | ⟨hnrange, _, hr, _⟩
    · subst hc'
      rw [setBanked_r]
    · rw [hr, setIdx_other]
      intro he
      subst he
      rcases hrel with hrel | hrel
      · simp at hrel
      · rw [if_neg (by simpa using hb)] at hrel
        have hbt : isBanked rn m' = true := by
          revert hrel
          cases isBanked rn m' <;> simp
        exact absurd ((isBanked_iff hbl').mp hbt) hnrange

/-- Every valid-mode read of a register below 16 succeeds. -/
theorem get_r_in_mode_isSome (c : CPU) {rn mode : Nat}
    (hmode : ValidMode mode) (hrn : rn < 16) :
    ∃ w, CPU.get_r_in_mode c rn mode = some w := by
  obtain ⟨len, hbl⟩ := bankedLen_of_validMode hmode
  rw [get_r_in_mode_eq c rn hbl]
  split_ifs <;> exact ⟨_, rfl⟩

/-- Claim C1: Register-bank routing invariant: after any sequence of
register-file writes (`set_r_in_mode`), reading register `rn` in a valid
mode `mode` returns the value of the most recent write routed to the
same slot — a write to `rn` in `mode` itself when `rn` is banked in
`mode` (r13-r14 in SVC/ABT/UND/IRQ, r8-r14 in FIQ), and otherwise the
most recent write to `rn` made through the unbanked set — falling back
to the initial register-file content when no such write exists.  In
particular a FIQ write to r8..r14 is invisible to a USR read. -/
theorem register_bank_routing (t : List RegOp) (c0 c : CPU) (rn mode : Nat)
    (hmode : ValidMode mode) (hrn : rn < 16)
    (hrun : runTrace c0 t = some c) :
    CPU.get_r_in_mode c rn mode
      = some ((lastRelevant t rn mode).getD ((CPU.get_r_in_mode c0 rn mode).getD 0)) := by
  induction t generalizing c0 with
  | nil =>
    have hc : c0 = c := by
      unfold runTrace at hrun
      injection hrun
    subst hc
    obtain ⟨w, hw⟩ := get_r_in_mode_isSome c0 hmode hrn
    rw [hw]
    rfl
  | cons op t ih =>
    obtain ⟨rn', m', v⟩ := op
    unfold runTrace at hrun
    split at hrun
    · simp at hrun
    · next c1 hset =>
      have ihc := ih c1 hrun
      cases hLR : lastRelevant t rn mode with
      | some x =>
        rw [lastRelevant_cons_some _ hLR]
        rw [hLR] at ihc
        exact ihc
      | none =>
        rw [hLR] at ihc
        rw [lastRelevant_cons_none _ hLR]
        by_cases hrel : relevantWrite rn mode (.write rn' m' v) = true
        · rw [if_pos hrel]
          have hv := get_set_relevant hmode hrn hrel hset
          rw [hv] at ihc
          simpa [RegOp.value] using ihc
        · have hrelf : relevantWrite rn mode (.write rn' m' v) = false := by
            simpa using hrel
          rw [if_neg (by simp [hrelf])]
          have hsame := get_set_irrelevant hmode hrn hrelf hset
          rw [hsame] at ihc
          exact ihc

/-- Concrete instance of `register_bank_routing`: after a USR write of 7
to r8 followed by `set_r_in_mode(8, FIQ, 9)`, a USR-mode read of r8
still returns 7 — the FIQ write was banked. -/
theorem register_bank_routing_witness :
    (runTrace cpuZero [RegOp.write 8 MODE_USR 7, RegOp.write 8 MODE_FIQ 9]).map
        (fun c => CPU.get_r_in_mode c 8 MODE_USR) = some (some 7) := by
  obtain ⟨c, hc⟩ : ∃ c,
      runTrace cpuZero [RegOp.write 8 MODE_USR 7, RegOp.write 8 MODE_FIQ 9] = some c :=
    ⟨_, rfl⟩
  rw [hc, Option.map_some']
  rw [register_bank_routing [RegOp.write 8 MODE_USR 7, RegOp.write 8 MODE_FIQ 9]
    cpuZero c 8 MODE_USR (Or.inl rfl) (by norm_num) hc]
  rfl

end Gbae
